import Mathlib

/-!
Verification development for the AI recommendation service
(`ai-recommendation-service`): a shallow embedding of the pure
recommendation, scoring, portfolio-analytics and risk-assessment
computations of `services/ai_service.py` and of the request handler
control flow of `app.py`, together with theorems settling the
specification claims.

Modelling conventions:
* Python floats are embedded as exact rationals (`ℚ`); `round(x, 2)`
  becomes `round2` below.
* Python dicts holding external records become structures; a field read
  with `d.get(key, default)` is modelled as an `Option` field consumed
  with `getD default`, or as an already-defaulted field when the source
  only ever reads it with the same default.
* The RandomForest regressors and the fitted scaler are opaque external
  artefacts: they are embedded as function-valued fields of `MLState`.
  A scaler `transform` that raises `ValueError` is modelled by the
  scaler function returning `none`.
* Natural-language description fields (descriptions, advantages,
  rationale strings) are not modelled; no claim mentions them.
-/

namespace AIRec

/-- Risk levels / risk profiles, totally ordered LOW < MEDIUM < HIGH. -/
inductive RiskLevel where
  | LOW
  | MEDIUM
  | HIGH
deriving DecidableEq, Repr

/-- Market sentiment derived from index quotes. -/
inductive Sentiment where
  | BULLISH
  | NEUTRAL
  | BEARISH
deriving DecidableEq, Repr

/-- Asset classes appearing in the source. The Python code reads
`asset.get("assetType", "OTHER")`, so an absent type is `OTHER`. -/
inductive AssetType where
  | SAVINGS
  | FUND
  | STOCK
  | BOND
  | REAL_ESTATE
  | GOLD
  | CRYPTO
  | OTHER
deriving DecidableEq, Repr

/-- Customer profile record fetched from the customer service.  Every
field is optional because the Python code reads each one with
`customer_data.get(key, default)`. -/
structure Customer where
  age : Option ℚ
  income : Option ℚ
  currentAssets : Option ℚ
  investmentHorizon : Option ℚ
  riskTolerance : Option ℚ
  riskScore : Option ℚ
  riskProfile : Option RiskLevel
deriving DecidableEq, Repr

/-- One asset holding.  The source reads `currentValue` and
`initialValue` with default `0`, `assetType` with default `"OTHER"` and
`riskLevel` with default `"MEDIUM"`, so the fields are stored already
defaulted. -/
structure Holding where
  assetName : String
  assetType : AssetType
  currentValue : ℚ
  initialValue : ℚ
  riskLevel : RiskLevel
deriving DecidableEq, Repr

/-- An index quote inside the market overview (`price` is read with
default 20, `change_percent` is a string parsed to a number; a missing
or unparsable percentage is `none`). -/
structure IndexQuote where
  price : Option ℚ
  change_percent : Option ℚ
deriving DecidableEq, Repr

/-- The `"data"` part of a market overview returned by
`get_market_overview`: market sentiment (read with default `"NEUTRAL"`)
and the tracked index quotes; an absent index key is `none`. -/
structure MarketInfo where
  market_sentiment : Sentiment
  vix : Option IndexQuote
  gspc : Option IndexQuote
  dji : Option IndexQuote
  ixic : Option IndexQuote
deriving DecidableEq, Repr

/-- The process-wide ML state of `AIRecommendationService`: the two
RandomForest regressors (absent when loading failed) and the fitted
`StandardScaler`.  A model is an opaque function from the scaled feature
vector to a predicted value; `scaler l = none` models
`scaler.transform` raising `ValueError` on a feature vector `l`. -/
structure MLState where
  risk_model : Option (List ℚ → ℚ)
  return_model : Option (List ℚ → ℚ)
  scaler : List ℚ → Option (List ℚ)

/-- Python `round(x, 2)` on the embedded rationals. -/
def round2 (q : ℚ) : ℚ := (round (q * 100) : ℤ) / 100

/-- The sentiment-to-score mapping `{"BULLISH": 0.8, "NEUTRAL": 0.5,
"BEARISH": 0.2}` used by both prediction functions. -/
def sentimentScore : Sentiment → ℚ
  | .BULLISH => 0.8
  | .NEUTRAL => 0.5
  | .BEARISH => 0.2

/-- Runs the scaler as the source does: `scaler.transform(features)`
inside a `try`, retrying with only the five customer features when a
`ValueError` is raised. -/
def scaleFeatures (svc : MLState) (features : List ℚ) : Option (List ℚ) :=
  match svc.scaler features with
  | some fs => some fs
  | none => svc.scaler (features.take 5)

/-- `predict_risk_score` from `services/ai_service.py`.  When the risk
model is absent the function returns the self-reported
`customer_data.get("riskScore", 5.0)` unchanged; the same expression is
returned by the `except` fallback, which here is reachable when both
scaler attempts fail.  On the model path the prediction is adjusted by
market sentiment and finally `round(max(1, min(10, r)), 2)`. -/
def predict_risk_score (svc : MLState) (c : Customer) (m : Option MarketInfo) : ℚ :=
  match svc.risk_model with
  | none => c.riskScore.getD 5
  | some model =>
    let age := c.age.getD 45
    let income := c.income.getD 50000000
    let current_assets := c.currentAssets.getD 100000000
    let investment_horizon := c.investmentHorizon.getD 5
    let risk_tolerance := c.riskTolerance.getD 3
    let vix_level : ℚ :=
      match m with
      | some mi =>
        match mi.vix with
        | some q => q.price.getD 20
        | none => 20
      | none => 20
    let market_volatility : ℚ :=
      match m with
      | some mi =>
        match mi.vix with
        | some q => min 0.5 (q.price.getD 20 / 100)
        | none => 0.15
      | none => 0.15
    let market_sentiment_score : ℚ :=
      match m with
      | some mi => sentimentScore mi.market_sentiment
      | none => 0.5
    let features := [age, income, current_assets, investment_horizon, risk_tolerance,
      market_volatility, market_sentiment_score, vix_level]
    match scaleFeatures svc features with
    | none => c.riskScore.getD 5
    | some fs =>
      let predicted := model fs
      let predicted :=
        match m with
        | some mi =>
          match mi.market_sentiment with
          | .BEARISH => min 10 (predicted + 1)
          | .BULLISH => max 1 (predicted - 0.5)
          | .NEUTRAL => predicted
        | none => predicted
      round2 (max 1 (min 10 predicted))

/-- `predict_expected_return` from `services/ai_service.py`.  When the
return model is absent (or the scaler fails twice, reaching the
`except` fallback) the fixed default `8.0` is returned.  On the model
path the prediction is adjusted by sentiment, multiplied by
`1 + sp500_return * 0.3`, and finally `round(max(0, min(25, r)), 2)`. -/
def predict_expected_return (svc : MLState) (c : Customer) (m : Option MarketInfo) : ℚ :=
  match svc.return_model with
  | none => 8.0
  | some model =>
    let age := c.age.getD 45
    let income := c.income.getD 50000000
    let current_assets := c.currentAssets.getD 100000000
    let investment_horizon := c.investmentHorizon.getD 5
    let risk_tolerance := c.riskTolerance.getD 3
    let sp500_return : ℚ :=
      match m with
      | some mi =>
        match mi.gspc with
        | some q =>
          match q.change_percent with
          | some cp => cp / 100
          | none => 0.08
        | none => 0.08
      | none => 0.08
    let market_sentiment_score : ℚ :=
      match m with
      | some mi => sentimentScore mi.market_sentiment
      | none => 0.5
    let volatility_indicators : List ℚ :=
      match m with
      | some mi => ([mi.gspc, mi.dji, mi.ixic].filterMap
          (fun q => q.bind (fun iq => iq.change_percent))).map (fun x => |x|)
      | none => []
    let market_volatility : ℚ :=
      if volatility_indicators = [] then 0.15
      else min 0.5 ((volatility_indicators.sum / volatility_indicators.length) / 100)
    let features := [age, income, current_assets, investment_horizon, risk_tolerance,
      market_volatility, market_sentiment_score, sp500_return]
    match scaleFeatures svc features with
    | none => 8.0
    | some fs =>
      let predicted := model fs
      let predicted :=
        match m with
        | some mi =>
          let p :=
            match mi.market_sentiment with
            | .BULLISH => min 25 (predicted + 2)
            | .BEARISH => max 0 (predicted - 1)
            | .NEUTRAL => predicted
          p * (1 + sp500_return * 0.3)
        | none => predicted
      round2 (max 0 (min 25 predicted))

/-- `round2` is monotone. -/
theorem round2_le_round2 {x y : ℚ} (h : x ≤ y) : round2 x ≤ round2 y := by
  unfold round2
  have : round (x * 100) ≤ round (y * 100) := by
    rw [round_eq, round_eq]
    exact Int.floor_le_floor (by linarith)
  have h2 : ((round (x * 100) : ℤ) : ℚ) ≤ ((round (y * 100) : ℤ) : ℚ) := by
    exact_mod_cast this
  linarith

/-- `round2` of a clamped value stays within the clamp interval, given
that the endpoints are fixed points of `round2`. -/
theorem round2_mem_Icc {lo hi x : ℚ} (hlo : round2 lo = lo) (hhi : round2 hi = hi)
    (h1 : lo ≤ x) (h2 : x ≤ hi) : lo ≤ round2 x ∧ round2 x ≤ hi :=
  ⟨hlo ▸ round2_le_round2 h1, hhi ▸ round2_le_round2 h2⟩

theorem round2_one : round2 1 = 1 := by
  norm_num [round2, round_eq]

theorem round2_ten : round2 10 = 10 := by
  norm_num [round2, round_eq]

theorem round2_zero : round2 0 = 0 := by
  norm_num [round2, round_eq]

theorem round2_twentyfive : round2 25 = 25 := by
  norm_num [round2, round_eq]

/-- If every scaler call succeeds, `scaleFeatures` succeeds. -/
theorem scaleFeatures_isSome (svc : MLState) (features : List ℚ)
    (h : ∀ l, (svc.scaler l).isSome) : ∃ fs, scaleFeatures svc features = some fs := by
  unfold scaleFeatures
  rcases hs : svc.scaler features with _ | fs
  · have := h features
    rw [hs] at this
    simp at this
  · exact ⟨fs, rfl⟩

/-- Claim C2 (amended): `predict_expected_return` always lies in
`[0, 25]`, including the model-unavailable fallback (which returns the
fixed `8.0`); `predict_risk_score` lies in `[1, 10]` whenever the risk
model is loaded and the scaler transform succeeds.  The original claim
is refuted by `c2_counterexample`: on the model-unavailable fallback
`predict_risk_score` returns the self-reported riskScore unclamped,
which can lie outside `[1, 10]`. -/
theorem c2_prediction_bounds :
    (∀ (svc : MLState) (c : Customer) (m : Option MarketInfo),
      0 ≤ predict_expected_return svc c m ∧ predict_expected_return svc c m ≤ 25) ∧
    (∀ (svc : MLState) (model : List ℚ → ℚ) (c : Customer) (m : Option MarketInfo),
      svc.risk_model = some model → (∀ l, (svc.scaler l).isSome) →
      1 ≤ predict_risk_score svc c m ∧ predict_risk_score svc c m ≤ 10) := by
  have hret : ∀ q : ℚ, 0 ≤ round2 (max 0 (min 25 q)) ∧ round2 (max 0 (min 25 q)) ≤ 25 :=
    fun q => round2_mem_Icc round2_zero round2_twentyfive (le_max_left _ _)
      (max_le (by norm_num) (min_le_left _ _))
  have hrisk : ∀ q : ℚ, 1 ≤ round2 (max 1 (min 10 q)) ∧ round2 (max 1 (min 10 q)) ≤ 10 :=
    fun q => round2_mem_Icc round2_one round2_ten (le_max_left _ _)
      (max_le (by norm_num) (min_le_left _ _))
  constructor
  · intro svc c m
    unfold predict_expected_return
    split
    · norm_num
    · dsimp only
      split
      · norm_num
      · exact hret _
  · intro svc model c m hm hs
    unfold predict_risk_score
    rw [hm]
    dsimp only
    split
    · rename_i heq
      obtain ⟨fs, hfs⟩ := scaleFeatures_isSome svc _ hs
      rw [hfs] at heq
      cases heq
    · exact hrisk _

/-- Service state with no loaded models (the catch-all fallback
configuration of `load_or_train_models`). -/
def svcNoModel : MLState := ⟨none, none, fun l => some l⟩

/-- A customer whose self-reported riskScore is 0 (the data model allows
riskScore in 0–10). -/
def custZeroRisk : Customer := ⟨none, none, none, none, none, some 0, some .LOW⟩

/-- Claim C2 counterexample: with the model unavailable, the fallback
returns the self-reported riskScore 0, which is outside `[1, 10]`. -/
theorem c2_counterexample :
    predict_risk_score svcNoModel custZeroRisk none = 0 ∧
      ¬ (1 ≤ predict_risk_score svcNoModel custZeroRisk none) := by
  norm_num [predict_risk_score, svcNoModel, custZeroRisk]

/-- Service state with constant regressors and an identity scaler, used
to witness the amended C2 bounds at a concrete input. -/
def svcConst : MLState := ⟨some (fun _ => 7), some (fun _ => 12), fun l => some l⟩

/-- Witness for the amended C2 bounds at a concrete service state and
customer. -/
theorem c2_prediction_bounds_witness :
    (0 ≤ predict_expected_return svcConst custZeroRisk none ∧
      predict_expected_return svcConst custZeroRisk none ≤ 25) ∧
    (1 ≤ predict_risk_score svcConst custZeroRisk none ∧
      predict_risk_score svcConst custZeroRisk none ≤ 10) :=
  ⟨c2_prediction_bounds.1 svcConst custZeroRisk none,
   c2_prediction_bounds.2 svcConst (fun _ => 7) custZeroRisk none rfl (fun _ => rfl)⟩

/-- A generated investment product (an entry of
`self.investment_products`).  Textual fields other than the name are not
modelled; `confidence_score` is `none` until a recommendation copy sets
it. -/
structure Product where
  product_name : String
  asset_type : AssetType
  expected_return : ℚ
  risk_level : RiskLevel
  min_investment : ℚ
  max_investment : Option ℚ
  confidence_score : Option ℚ
deriving DecidableEq, Repr

/-- Python truthiness of an optional number (`None` and `0` are falsy),
used for `if investment_amount:` and `if product.get("max_investment"):`. -/
def truthy : Option ℚ → Bool
  | none => false
  | some q => decide (q ≠ 0)

/-- The `risk_mapping` table of `_is_product_suitable`. -/
def riskMapping : RiskLevel → List RiskLevel
  | .LOW => [.LOW]
  | .MEDIUM => [.LOW, .MEDIUM]
  | .HIGH => [.LOW, .MEDIUM, .HIGH]

/-- `_is_product_suitable`: the product risk level must belong to the
list admitted by the customer risk profile (the `risk_score` argument is
unused, as in the source). -/
def is_product_suitable (p : Product) (risk_profile : RiskLevel) (_risk_score : ℚ) : Bool :=
  (riskMapping risk_profile).contains p.risk_level

/-- `_is_product_suitable_for_market_conditions`: exclude STOCK in a
BEARISH market and BOND/GOLD in a BULLISH market; everything passes when
no market data is available. -/
def is_product_suitable_for_market_conditions (p : Product) (m : Option MarketInfo) : Bool :=
  match m with
  | none => true
  | some mi =>
    match p.asset_type, mi.market_sentiment with
    | .STOCK, .BEARISH => false
    | .BOND, .BULLISH => false
    | .GOLD, .BULLISH => false
    | _, _ => true

/-- The risk-alignment term of
`_calculate_product_score_with_market_data`: +20 on an exact match, +10
only when the customer profile is HIGH or LOW and the product risk is
MEDIUM. -/
def risk_alignment_bonus (risk_profile : RiskLevel) (product_risk : RiskLevel) : ℚ :=
  if product_risk = risk_profile then 20
  else if (risk_profile = .HIGH ∧ product_risk = .MEDIUM) ∨
      (risk_profile = .LOW ∧ product_risk = .MEDIUM) then 10
  else 0

/-- `_calculate_product_score_with_market_data`: base score from the
expected return, risk alignment, diversification bonus, market-sentiment
adjustment (only when market data is present) and investment-amount
compatibility (only when the amount is truthy). -/
def calculate_product_score_with_market_data (p : Product) (c : Customer)
    (asset_data : List Holding) (m : Option MarketInfo) (investment_amount : Option ℚ) : ℚ :=
  let score : ℚ := p.expected_return * 2
  let risk_profile := c.riskProfile.getD .MEDIUM
  let score := score + risk_alignment_bonus risk_profile p.risk_level
  let current_asset_types := asset_data.map (fun a => a.assetType)
  let score := if current_asset_types.contains p.asset_type then score else score + 15
  let score :=
    match m with
    | none => score
    | some mi =>
      match p.asset_type, mi.market_sentiment with
      | .STOCK, .BULLISH => score + 15
      | .STOCK, .BEARISH => score - 10
      | .BOND, .BEARISH => score + 10
      | .BOND, .BULLISH => score - 5
      | .GOLD, .BEARISH => score + 10
      | .SAVINGS, _ => score + 5
      | _, _ => score
  if truthy investment_amount then
    if p.min_investment ≤ investment_amount.getD 0 then score + 10 else score - 20
  else score

/-- The `{"LOW": 3, "MEDIUM": 6, "HIGH": 9}` scale used by
`_calculate_ml_based_adjustment`. -/
def productRiskScale : RiskLevel → ℚ
  | .LOW => 3
  | .MEDIUM => 6
  | .HIGH => 9

/-- `_calculate_ml_based_adjustment`: banded bonuses from the distance
of the product to the ML-predicted risk score and expected return, plus
a VIX-regime adjustment. -/
def calculate_ml_based_adjustment (p : Product) (predicted_risk_score : ℚ)
    (predicted_expected_return : ℚ) (m : Option MarketInfo) : ℚ :=
  let adjustment : ℚ := 0
  let risk_diff := |predicted_risk_score - productRiskScale p.risk_level|
  let adjustment := adjustment +
    (if risk_diff ≤ 2 then 10 else if risk_diff ≤ 4 then 5 else -5)
  let return_diff := |predicted_expected_return - p.expected_return|
  let adjustment := adjustment +
    (if return_diff ≤ 3 then 8 else if return_diff ≤ 6 then 4 else -3)
  match m with
  | none => adjustment
  | some mi =>
    match mi.vix with
    | none => adjustment
    | some q =>
      let vix_level := q.price.getD 20
      if vix_level > 30 then
        if p.asset_type = .SAVINGS ∨ p.asset_type = .BOND then adjustment + 5
        else if p.asset_type = .STOCK then adjustment - 5
        else adjustment
      else if vix_level < 15 then
        if p.asset_type = .STOCK then adjustment + 5 else adjustment
      else adjustment

/-- The total score given to a suitable product inside
`generate_recommendations`: the market-data score plus the ML-based
adjustment computed from the two predictions. -/
def total_product_score (svc : MLState) (p : Product) (c : Customer)
    (asset_data : List Holding) (m : Option MarketInfo) (investment_amount : Option ℚ) : ℚ :=
  calculate_product_score_with_market_data p c asset_data m investment_amount +
    calculate_ml_based_adjustment p (predict_risk_score svc c m)
      (predict_expected_return svc c m) m

/-- The per-recommendation post-processing of `generate_recommendations`
for one scored product: copy the product, set
`confidence_score = min(score/100, 1.0)`, and when an investment amount
is given lower `min_investment` to the amount if it is below the
product minimum and cap a truthy `max_investment` at the amount.  The
source mutates the copied dict field by field; the same updates are
expressed here per field. -/
def finalize_recommendation (investment_amount : Option ℚ) (pr : Product × ℚ) : Product :=
  { pr.1 with
    confidence_score := some (min (pr.2 / 100) 1),
    min_investment :=
      if truthy investment_amount then
        if investment_amount.getD 0 < pr.1.min_investment then investment_amount.getD 0
        else pr.1.min_investment
      else pr.1.min_investment,
    max_investment :=
      if truthy investment_amount then
        match pr.1.max_investment with
        | some mx => if mx ≠ 0 then some (min mx (investment_amount.getD 0)) else some mx
        | none => none
      else pr.1.max_investment }

/-- `generate_recommendations` from `services/ai_service.py`, starting
from the already-initialized product catalog `products`
(`self.investment_products`) and the fetched market overview `m`
(`real_market_data`; the `market_data` argument of the Python function
is unused by it).  The catalog is filtered by risk-profile and
market-condition suitability, scored, sorted descending by score
(Python `list.sort(reverse=True)` is stable, as is `mergeSort`), cut to
the top 5 and post-processed. -/
def generate_recommendations (svc : MLState) (products : List Product) (c : Customer)
    (asset_data : List Holding) (m : Option MarketInfo) (investment_amount : Option ℚ) :
    List Product :=
  let predicted_risk_score := predict_risk_score svc c m
  let risk_profile := c.riskProfile.getD .MEDIUM
  let risk_score := c.riskScore.getD predicted_risk_score
  let suitable_products := products.filter (fun p =>
    is_product_suitable p risk_profile risk_score &&
      is_product_suitable_for_market_conditions p m)
  let scored_products := suitable_products.map (fun p =>
    (p, total_product_score svc p c asset_data m investment_amount))
  let sorted := scored_products.mergeSort (fun a b => decide (b.2 ≤ a.2))
  (sorted.take 5).map (finalize_recommendation investment_amount)

/-- Every returned recommendation is the post-processed copy of a
catalog product that passed both suitability filters and was scored by
`total_product_score`. -/
theorem mem_generate_recommendations
    {svc : MLState} {products : List Product} {c : Customer} {asset_data : List Holding}
    {m : Option MarketInfo} {investment_amount : Option ℚ} {r : Product}
    (h : r ∈ generate_recommendations svc products c asset_data m investment_amount) :
    ∃ p, p ∈ products ∧
      is_product_suitable p (c.riskProfile.getD .MEDIUM)
        (c.riskScore.getD (predict_risk_score svc c m)) = true ∧
      is_product_suitable_for_market_conditions p m = true ∧
      r = finalize_recommendation investment_amount
        (p, total_product_score svc p c asset_data m investment_amount) := by
  unfold generate_recommendations at h
  obtain ⟨pr, hpr, hrfin⟩ := List.mem_map.1 h
  have h2 := List.take_subset _ _ hpr
  have h3 := List.mem_mergeSort.1 h2
  obtain ⟨p, hp, hpp⟩ := List.mem_map.1 h3
  obtain ⟨hmem, hb⟩ := List.mem_filter.1 hp
  rw [Bool.and_eq_true] at hb
  exact ⟨p, hmem, hb.1, hb.2, by rw [← hrfin, ← hpp]⟩

theorem finalize_risk_level (investment_amount : Option ℚ) (pr : Product × ℚ) :
    (finalize_recommendation investment_amount pr).risk_level = pr.1.risk_level := rfl

theorem finalize_confidence (investment_amount : Option ℚ) (pr : Product × ℚ) :
    (finalize_recommendation investment_amount pr).confidence_score =
      some (min (pr.2 / 100) 1) := rfl

/-- Claim C3: a recommendation returned by `generate_recommendations`
always has a risk level admitted by the customer risk profile
(LOW admits only LOW, MEDIUM admits LOW and MEDIUM, HIGH admits all
three); in particular a LOW-profile customer never receives a HIGH-risk
product, for any catalog, holdings, market snapshot and amount. -/
theorem c3_risk_profile_admissibility :
    ∀ (svc : MLState) (products : List Product) (c : Customer) (asset_data : List Holding)
      (m : Option MarketInfo) (amt : Option ℚ) (r : Product),
      r ∈ generate_recommendations svc products c asset_data m amt →
      r.risk_level ∈ riskMapping (c.riskProfile.getD .MEDIUM) ∧
        (c.riskProfile = some .LOW → r.risk_level ≠ .HIGH) := by
  intro svc products c asset_data m amt r h
  obtain ⟨p, _, hsuit, _, hre⟩ := mem_generate_recommendations h
  have hrl : r.risk_level = p.risk_level := by rw [hre, finalize_risk_level]
  have hp : p.risk_level ∈ riskMapping (c.riskProfile.getD .MEDIUM) := by
    unfold is_product_suitable at hsuit
    simpa using hsuit
  refine ⟨hrl ▸ hp, ?_⟩
  intro hlow
  rw [hlow] at hp
  simp only [Option.getD_some, riskMapping, List.mem_singleton] at hp
  rw [hrl, hp]
  simp

/-- The LOW-risk savings product used in concrete instantiations. -/
def prodSAVLow : Product := ⟨"Tiet kiem co ky han", .SAVINGS, 3.5, .LOW, 800000, none, none⟩

/-- A LOW-risk-profile customer with no further data. -/
def custLow : Customer := ⟨none, none, none, none, none, none, some .LOW⟩

/-- The recommendation produced for `custLow` from the one-product
catalog `[prodSAVLow]` with no market data and no amount:
score 7 + 20 + 15 + 10 + 4 = 56, confidence 56/100. -/
def recWitness : Product := ⟨"Tiet kiem co ky han", .SAVINGS, 3.5, .LOW, 800000, none, some (14/25)⟩

/-- Witness for C3 at a concrete catalog and customer. -/
theorem c3_witness :
    recWitness.risk_level ∈ riskMapping (custLow.riskProfile.getD .MEDIUM) ∧
      recWitness.risk_level ≠ .HIGH := by
  have h := c3_risk_profile_admissibility svcNoModel [prodSAVLow] custLow [] none none recWitness
    (by
      simp [generate_recommendations, total_product_score, predict_risk_score,
        predict_expected_return, calculate_product_score_with_market_data,
        calculate_ml_based_adjustment, is_product_suitable,
        is_product_suitable_for_market_conditions, finalize_recommendation,
        risk_alignment_bonus, productRiskScale, truthy, riskMapping,
        svcNoModel, custLow, prodSAVLow, recWitness, List.mergeSort]
      norm_num [abs_of_nonneg (show (0:ℚ) ≤ 9/2 by norm_num), min_def])
  exact ⟨h.1, h.2 rfl⟩

/-- Claim C4 (amended): every returned recommendation carries
`confidence_score = min(total score / 100, 1.0)`, which is always at
most 1 and is nonnegative whenever the total score is nonnegative.  The
original inclusion in `[0, 1]` is refuted by `c4_counterexample`: a
negative total score yields a negative confidence score. -/
theorem c4_confidence_score :
    ∀ (svc : MLState) (products : List Product) (c : Customer) (asset_data : List Holding)
      (m : Option MarketInfo) (amt : Option ℚ) (r : Product),
      r ∈ generate_recommendations svc products c asset_data m amt →
      ∃ p ∈ products,
        r.confidence_score =
          some (min (total_product_score svc p c asset_data m amt / 100) 1) ∧
        min (total_product_score svc p c asset_data m amt / 100) 1 ≤ 1 ∧
        (0 ≤ total_product_score svc p c asset_data m amt →
          0 ≤ min (total_product_score svc p c asset_data m amt / 100) 1) := by
  intro svc products c asset_data m amt r h
  obtain ⟨p, hmem, _, _, hre⟩ := mem_generate_recommendations h
  refine ⟨p, hmem, ?_, min_le_right _ _, ?_⟩
  · rw [hre, finalize_confidence]
  · intro hs
    exact le_min (div_nonneg hs (by norm_num)) zero_le_one

/-- A HIGH-profile customer reporting riskScore 10. -/
def custHigh10 : Customer := ⟨none, none, none, none, none, some 10, some .HIGH⟩

/-- An existing savings holding (removes the diversification bonus). -/
def holdSav : Holding := ⟨"Tiet kiem", .SAVINGS, 100, 100, .LOW⟩

/-- Claim C4 counterexample: with the savings product scored
7 + 0 + 0 - 20 - 5 + 4 = -14, the returned recommendation has
confidence score -7/50, outside `[0, 1]`. -/
theorem c4_counterexample :
    ∃ r ∈ generate_recommendations svcNoModel [prodSAVLow] custHigh10 [holdSav] none (some 100),
      r.confidence_score = some (-7/50) ∧ ¬ (0 ≤ (-7/50 : ℚ)) := by
  refine ⟨⟨"Tiet kiem co ky han", .SAVINGS, 3.5, .LOW, 100, none, some (-7/50)⟩, ?_, rfl,
    by norm_num⟩
  simp [generate_recommendations, total_product_score, predict_risk_score,
    predict_expected_return, calculate_product_score_with_market_data,
    calculate_ml_based_adjustment, is_product_suitable,
    is_product_suitable_for_market_conditions, finalize_recommendation,
    risk_alignment_bonus, productRiskScale, truthy, riskMapping,
    svcNoModel, custHigh10, prodSAVLow, holdSav, List.mergeSort]
  norm_num [abs_of_nonneg (show (0:ℚ) ≤ 9/2 by norm_num), min_def]

/-- Witness for the amended C4 at a concrete catalog and customer. -/
theorem c4_witness :
    ∃ p ∈ [prodSAVLow],
      recWitness.confidence_score =
        some (min (total_product_score svcNoModel p custLow [] none none / 100) 1) ∧
      min (total_product_score svcNoModel p custLow [] none none / 100) 1 ≤ 1 ∧
      (0 ≤ total_product_score svcNoModel p custLow [] none none →
        0 ≤ min (total_product_score svcNoModel p custLow [] none none / 100) 1) :=
  c4_confidence_score svcNoModel [prodSAVLow] custLow [] none none recWitness
    (by
      simp [generate_recommendations, total_product_score, predict_risk_score,
        predict_expected_return, calculate_product_score_with_market_data,
        calculate_ml_based_adjustment, is_product_suitable,
        is_product_suitable_for_market_conditions, finalize_recommendation,
        risk_alignment_bonus, productRiskScale, truthy, riskMapping,
        svcNoModel, custLow, prodSAVLow, recWitness, List.mergeSort]
      norm_num [abs_of_nonneg (show (0:ℚ) ≤ 9/2 by norm_num), min_def])

/-- Claim C5 counterexample: a MEDIUM customer with a LOW product
receives 0, not the +10 the symmetric adjacent-band reading requires. -/
theorem c5_counterexample :
    risk_alignment_bonus .MEDIUM .LOW = 0 ∧ risk_alignment_bonus .MEDIUM .LOW ≠ 10 := by
  simp [risk_alignment_bonus]

/-- Claim C5 (amended): the risk-alignment term awards +20 exactly on an
exact match and +10 exactly when the product risk is MEDIUM and the
customer profile is HIGH or LOW; a MEDIUM-profile customer receives 0
for every non-MEDIUM product (the adjacent-band bonus is not
symmetric). -/
theorem c5_risk_alignment :
    (∀ rp pr, risk_alignment_bonus rp pr = 20 ↔ pr = rp) ∧
    (∀ rp pr, risk_alignment_bonus rp pr = 10 ↔
      (pr = .MEDIUM ∧ (rp = .HIGH ∨ rp = .LOW))) ∧
    (∀ pr, risk_alignment_bonus .MEDIUM pr = if pr = .MEDIUM then 20 else 0) := by
  refine ⟨?_, ?_, ?_⟩
  · intro rp pr
    cases rp <;> cases pr <;> simp [risk_alignment_bonus]
  · intro rp pr
    cases rp <;> cases pr <;> simp [risk_alignment_bonus]
  · intro pr
    cases pr <;> simp [risk_alignment_bonus]

/-- Total current value of the holdings,
`sum(asset.get("currentValue", 0) for asset in asset_data)`. -/
def totalValue (asset_data : List Holding) : ℚ :=
  (asset_data.map (fun a => a.currentValue)).sum

/-- First-occurrence deduplication of the asset types, matching the
insertion order of the Python dict accumulated over the holdings. -/
def dedupKeys : List AssetType → List AssetType
  | [] => []
  | t :: rest => t :: (dedupKeys rest).filter (fun x => decide (x ≠ t))

theorem mem_dedupKeys {l : List AssetType} {x : AssetType} : x ∈ dedupKeys l ↔ x ∈ l := by
  induction l with
  | nil => simp [dedupKeys]
  | cons t rest ih =>
    by_cases hx : x = t
    · simp [dedupKeys, hx]
    · simp [dedupKeys, List.mem_filter, hx, ih]

theorem nodup_dedupKeys (l : List AssetType) : (dedupKeys l).Nodup := by
  induction l with
  | nil => simp [dedupKeys]
  | cons t rest ih =>
    rw [dedupKeys, List.nodup_cons]
    refine ⟨?_, List.Nodup.filter _ ih⟩
    intro hmem
    have := (List.mem_filter.1 hmem).2
    simp at this

/-- The value accumulated for one asset type by the grouping loops
(`asset_allocation[t] = asset_allocation.get(t, 0) + value`). -/
def sumValuesFor (asset_data : List Holding) (t : AssetType) : ℚ :=
  ((asset_data.filter (fun a => decide (a.assetType = t))).map
    (fun a => a.currentValue)).sum

theorem sumValuesFor_cons (a : Holding) (rest : List Holding) (t : AssetType) :
    sumValuesFor (a :: rest) t =
      (if a.assetType = t then a.currentValue else 0) + sumValuesFor rest t := by
  unfold sumValuesFor
  rw [List.filter_cons]
  by_cases h : a.assetType = t <;> simp [h]

theorem sum_map_ite_not_mem (ts : List AssetType) (x : AssetType) (c : ℚ) (hx : x ∉ ts) :
    (ts.map (fun t => if x = t then c else 0)).sum = 0 := by
  induction ts with
  | nil => simp
  | cons t ts ih =>
    simp only [List.map_cons, List.sum_cons]
    rw [if_neg (by rintro rfl; exact hx (List.mem_cons_self _ _)),
      ih (fun h => hx (List.mem_cons_of_mem _ h))]
    ring

theorem sum_map_ite_nodup (ts : List AssetType) (x : AssetType) (c : ℚ)
    (hnd : ts.Nodup) (hx : x ∈ ts) :
    (ts.map (fun t => if x = t then c else 0)).sum = c := by
  induction ts with
  | nil => cases hx
  | cons t ts ih =>
    rw [List.nodup_cons] at hnd
    simp only [List.map_cons, List.sum_cons]
    rcases List.mem_cons.1 hx with rfl | hmem
    · rw [if_pos rfl, sum_map_ite_not_mem ts x c hnd.1]
      ring
    · rw [if_neg (by rintro rfl; exact hnd.1 hmem), ih hnd.2 hmem]
      ring

theorem sum_map_addQ (l : List AssetType) (f g : AssetType → ℚ) :
    (l.map (fun t => f t + g t)).sum = (l.map f).sum + (l.map g).sum := by
  induction l with
  | nil => simp
  | cons t l ih =>
    simp only [List.map_cons, List.sum_cons, ih]
    ring

/-- Grouping the holdings by asset type and summing the per-type sums
recovers the total value. -/
theorem sum_sumValuesFor (asset_data : List Holding) (ts : List AssetType)
    (hnd : ts.Nodup) (hall : ∀ a ∈ asset_data, a.assetType ∈ ts) :
    (ts.map (fun t => sumValuesFor asset_data t)).sum = totalValue asset_data := by
  induction asset_data with
  | nil =>
    simp [sumValuesFor, totalValue]
  | cons a rest ih =>
    have h1 : (ts.map (fun t => sumValuesFor (a :: rest) t)).sum =
        (ts.map (fun t =>
          (if a.assetType = t then a.currentValue else 0) + sumValuesFor rest t)).sum := by
      simp only [sumValuesFor_cons]
    rw [h1, sum_map_addQ,
      sum_map_ite_nodup ts a.assetType a.currentValue hnd (hall a (List.mem_cons_self _ _)),
      ih (fun b hb => hall b (List.mem_cons_of_mem _ hb))]
    simp [totalValue]

/-- The per-type value map accumulated over the holdings, as an
insertion-ordered association list (the Python dict). -/
def typeValuePairs (asset_data : List Holding) : List (AssetType × ℚ) :=
  (dedupKeys (asset_data.map (fun a => a.assetType))).map
    (fun t => (t, sumValuesFor asset_data t))

theorem sum_typeValuePairs (asset_data : List Holding) :
    ((typeValuePairs asset_data).map (fun p => p.2)).sum = totalValue asset_data := by
  unfold typeValuePairs
  rw [List.map_map]
  exact sum_sumValuesFor _ _ (nodup_dedupKeys _)
    (fun a ha => mem_dedupKeys.2 (List.mem_map_of_mem _ ha))

/-- The asset-allocation map of `analyze_portfolio`: per-type value
sums, converted to percentages of the total only when
`total_value > 0` (otherwise the raw sums are kept, as in the source). -/
def asset_allocation (asset_data : List Holding) : List (AssetType × ℚ) :=
  let total_value := totalValue asset_data
  if total_value > 0 then
    (typeValuePairs asset_data).map (fun p => (p.1, p.2 / total_value * 100))
  else typeValuePairs asset_data

theorem sum_map_div_mul (l : List (AssetType × ℚ)) (d k : ℚ) :
    (l.map (fun p => p.2 / d * k)).sum = ((l.map (fun p => p.2)).sum) / d * k := by
  induction l with
  | nil => simp
  | cons p l ih =>
    simp only [List.map_cons, List.sum_cons, ih]
    ring

/-- Claim C7: for every non-empty sequence of holdings with strictly
positive total value, the allocation percentages computed by
`analyze_portfolio` sum to 100 (hence to 100 within 1e-6; the rational
embedding makes the sum exact). -/
theorem c7_allocation_sum :
    ∀ asset_data : List Holding, asset_data ≠ [] → 0 < totalValue asset_data →
      |(((asset_allocation asset_data).map (fun p => p.2)).sum) - 100| ≤ 1 / 1000000 := by
  intro assets _ hpos
  have h : (((asset_allocation assets).map (fun p => p.2)).sum) = 100 := by
    unfold asset_allocation
    rw [if_pos hpos, List.map_map]
    have hc : ((fun p : AssetType × ℚ => p.2) ∘
        (fun p : AssetType × ℚ => (p.1, p.2 / totalValue assets * 100))) =
        fun p : AssetType × ℚ => p.2 / totalValue assets * 100 := rfl
    rw [hc, sum_map_div_mul, sum_typeValuePairs, div_self (ne_of_gt hpos)]
    ring
  rw [h]
  norm_num

/-- A two-holding portfolio with positive total value. -/
def holdStock50 : Holding := ⟨"Co phieu VNM", .STOCK, 50, 40, .HIGH⟩

/-- The second holding of the witness portfolio. -/
def holdBond150 : Holding := ⟨"Trai phieu", .BOND, 150, 150, .LOW⟩

/-- Witness for C7 at a concrete two-holding portfolio. -/
theorem c7_witness :
    |(((asset_allocation [holdStock50, holdBond150]).map (fun p => p.2)).sum) - 100|
      ≤ 1 / 1000000 :=
  c7_allocation_sum [holdStock50, holdBond150] (by simp)
    (by norm_num [totalValue, holdStock50, holdBond150])

/-- `_calculate_concentration_risk`: the HHI over the individual
holdings (`Σ ((value/total*100)/100)²`), clamped above by 1; zero for an
empty list or zero total value. -/
def calculate_concentration_risk (asset_data : List Holding) : ℚ :=
  if asset_data = [] then 0
  else
    let total_value := totalValue asset_data
    if total_value = 0 then 0
    else
      let hhi := (asset_data.map (fun a =>
        (a.currentValue / total_value * 100 / 100) ^ 2)).sum
      min hhi 1

/-- Claim C8 (amended): the concentration measure always lies in
`[0, 1]`, and equals exactly 1 for a single holding of nonzero value.
The unconditional single-holding equality of the original claim is
refuted by `c8_counterexample`: a single holding of value 0 hits the
zero-total branch and yields 0. -/
theorem c8_concentration_bounds :
    (∀ asset_data : List Holding,
      0 ≤ calculate_concentration_risk asset_data ∧
        calculate_concentration_risk asset_data ≤ 1) ∧
    (∀ a : Holding, a.currentValue ≠ 0 → calculate_concentration_risk [a] = 1) := by
  constructor
  · intro assets
    unfold calculate_concentration_risk
    split
    · norm_num
    · dsimp only
      split
      · norm_num
      · refine ⟨le_min ?_ zero_le_one, min_le_right _ _⟩
        refine List.sum_nonneg ?_
        intro x hx
        obtain ⟨a, _, rfl⟩ := List.mem_map.1 hx
        positivity
  · intro a ha
    have ht : totalValue [a] = a.currentValue := by simp [totalValue]
    unfold calculate_concentration_risk
    rw [if_neg (by simp)]
    dsimp only
    rw [if_neg (by rw [ht]; exact ha)]
    simp [ht, div_self ha]

/-- A single holding with zero current value. -/
def holdZero : Holding := ⟨"Tai san 0", .SAVINGS, 0, 0, .LOW⟩

/-- Claim C8 counterexample: a single zero-value holding yields
concentration 0, not 1. -/
theorem c8_counterexample :
    calculate_concentration_risk [holdZero] = 0 ∧
      calculate_concentration_risk [holdZero] ≠ 1 := by
  norm_num [calculate_concentration_risk, totalValue, holdZero]

/-- Witness for the amended C8 at concrete holdings. -/
theorem c8_witness :
    (0 ≤ calculate_concentration_risk [holdSav] ∧
      calculate_concentration_risk [holdSav] ≤ 1) ∧
    calculate_concentration_risk [holdStock50] = 1 :=
  ⟨c8_concentration_bounds.1 [holdSav],
   c8_concentration_bounds.2 holdStock50 (by norm_num [holdStock50])⟩

/-- The stress-test block of `_calculate_stress_test_results`: the
market-crash scenario (loss and recovery time) and the
interest-rate-increase scenario (impact); description strings are kept,
other text is omitted. -/
structure StressTestResults where
  crash_estimated_loss : ℚ
  crash_recovery_time : String
  crash_affected : List AssetType
  rate_estimated_impact : ℚ
  rate_affected : List AssetType
deriving DecidableEq, Repr

/-- `_calculate_stress_test_results` from `services/ai_service.py`: the
holdings are grouped by asset type; STOCK/FUND contribute 15% and GOLD
5% of their allocation percentage to the crash impact, BOND 8% and
SAVINGS 2% to the interest-rate impact (the BOND and SAVINGS terms are
accumulated with the same sign); each impact is then scaled by the
total value and rounded. -/
def calculate_stress_test_results (asset_data : List Holding) (total_value : ℚ) :
    StressTestResults :=
  if asset_data = [] then ⟨0, "N/A", [], 0, []⟩
  else
    let pairs := typeValuePairs asset_data
    let market_crash_impact := (pairs.map (fun p =>
      if p.1 = .STOCK ∨ p.1 = .FUND then p.2 / total_value * 100 * 0.15
      else if p.1 = .GOLD then p.2 / total_value * 100 * 0.05
      else 0)).sum
    let interest_rate_impact := (pairs.map (fun p =>
      if p.1 = .BOND then p.2 / total_value * 100 * 0.08
      else if p.1 = .SAVINGS then p.2 / total_value * 100 * 0.02
      else 0)).sum
    let high_risk_percentage :=
      ((pairs.filter (fun p => decide (p.1 = .STOCK ∨ p.1 = .FUND))).map
        (fun p => p.2)).sum / total_value * 100
    let recovery_time :=
      if high_risk_percentage > 50 then "3-5 năm"
      else if high_risk_percentage > 20 then "2-3 năm"
      else "1-2 năm"
    ⟨round2 (total_value * (market_crash_impact / 100)), recovery_time,
      (pairs.map (fun p => p.1)).filter
        (fun t => decide (t = .STOCK ∨ t = .FUND ∨ t = .GOLD)),
      round2 (total_value * (interest_rate_impact / 100)),
      (pairs.map (fun p => p.1)).filter (fun t => decide (t = .BOND ∨ t = .SAVINGS))⟩

/-- A 100-value bond holding. -/
def holdBond100 : Holding := ⟨"Trai phieu CP", .BOND, 100, 100, .LOW⟩

/-- A 100-value savings holding. -/
def holdSav100 : Holding := ⟨"Tiet kiem 100", .SAVINGS, 100, 100, .LOW⟩

/-- Claim C6 (code evaluation at the failing input): for the portfolio
`[BOND 100, SAVINGS 100]` the code adds the SAVINGS 2% term with the
same sign as the BOND 8% loss, giving
`200 × (50×0.08 + 50×0.02)/100 = 10`, not the
`200 × (50×0.08 − 50×0.02)/100 = 6` obtained when the SAVINGS gain is
reported with the opposite sign as the claim states. -/
theorem c6_interest_impact_same_sign :
    (calculate_stress_test_results [holdBond100, holdSav100] 200).rate_estimated_impact = 10 ∧
      (calculate_stress_test_results [holdBond100, holdSav100] 200).rate_estimated_impact ≠
        200 * ((50 * 0.08 - 50 * 0.02) / 100) := by
  have h : (calculate_stress_test_results [holdBond100, holdSav100] 200).rate_estimated_impact
      = 10 := by
    simp [calculate_stress_test_results, typeValuePairs, dedupKeys, sumValuesFor,
      holdBond100, holdSav100]
    norm_num [round2, round_eq]
  refine ⟨h, ?_⟩
  rw [h]
  norm_num

/-- String names of the asset-type enum, for the factor records. -/
def assetTypeName : AssetType → String
  | .SAVINGS => "SAVINGS"
  | .FUND => "FUND"
  | .STOCK => "STOCK"
  | .BOND => "BOND"
  | .REAL_ESTATE => "REAL_ESTATE"
  | .GOLD => "GOLD"
  | .CRYPTO => "CRYPTO"
  | .OTHER => "OTHER"

/-- A portfolio/customer risk factor.  `label` holds the asset type
name (for `_identify_risk_factors`) or asset name (for `assess_risk`);
the `risk_mismatch` factor of the source has no percentage field,
modelled here as 0; description strings are omitted. -/
structure RiskFactor where
  factor_type : String
  label : String
  percentage : ℚ
  severity : String
deriving DecidableEq, Repr

/-- `_identify_risk_factors` (used by `analyze_portfolio`): one
concentration factor per asset type whose allocation percentage exceeds
50, severity HIGH above 70 and MEDIUM otherwise; plus a risk-mismatch
factor for a LOW-profile customer holding STOCK or CRYPTO. -/
def identify_risk_factors (asset_allocation : List (AssetType × ℚ)) (c : Customer) :
    List RiskFactor :=
  (asset_allocation.filter (fun p => decide (p.2 > 50))).map (fun p =>
    ⟨"concentration", assetTypeName p.1, p.2, if p.2 > 70 then "HIGH" else "MEDIUM"⟩) ++
  (if c.riskProfile.getD .MEDIUM = .LOW ∧
      asset_allocation.any (fun p => decide (p.1 = .STOCK ∨ p.1 = .CRYPTO)) = true
   then [⟨"risk_mismatch", "", 0, "MEDIUM"⟩] else [])

/-- The risk-factor block of `assess_risk`: one concentration factor per
individual holding exceeding 30% of total value, severity HIGH above
50% and MEDIUM otherwise (computed only when the total value is
positive; with a zero or negative total the loop guard
`total_value > 0` skips it); plus a risk-mismatch factor for a
LOW-profile customer holding a HIGH-risk asset. -/
def assess_risk_factors (asset_data : List Holding) (c : Customer) : List RiskFactor :=
  let total_value := totalValue asset_data
  (if total_value > 0 then
    (asset_data.filter (fun a => decide (a.currentValue / total_value * 100 > 30))).map
      (fun a =>
        ⟨"concentration", a.assetName, round2 (a.currentValue / total_value * 100),
          if a.currentValue / total_value * 100 > 50 then "HIGH" else "MEDIUM"⟩)
  else []) ++
  (if c.riskProfile.getD .MEDIUM = .LOW ∧
      asset_data.any (fun a => decide (a.riskLevel = .HIGH)) = true
   then [⟨"risk_mismatch", "", 0, "MEDIUM"⟩] else [])

/-- Claim C10: `analyze_portfolio` (via `_identify_risk_factors`) emits
a concentration factor for every asset type above 50% of total value,
HIGH exactly above 70%, while `assess_risk` emits a per-holding
concentration factor above 30%, HIGH exactly above 50% — two different
threshold pairs. -/
theorem c10_concentration_thresholds :
    ∀ (asset_data : List Holding) (c : Customer), asset_data ≠ [] →
      0 < totalValue asset_data →
      (∀ t pct, (t, pct) ∈ asset_allocation asset_data → pct > 50 →
        (⟨"concentration", assetTypeName t, pct,
          if pct > 70 then "HIGH" else "MEDIUM"⟩ : RiskFactor) ∈
          identify_risk_factors (asset_allocation asset_data) c) ∧
      (∀ a ∈ asset_data, a.currentValue / totalValue asset_data * 100 > 30 →
        (⟨"concentration", a.assetName, round2 (a.currentValue / totalValue asset_data * 100),
          if a.currentValue / totalValue asset_data * 100 > 50 then "HIGH" else "MEDIUM"⟩ :
            RiskFactor) ∈ assess_risk_factors asset_data c) := by
  intro assets c _ hpos
  constructor
  · intro t pct hmem hgt
    apply List.mem_append_left
    refine List.mem_map.2 ⟨(t, pct), ?_, rfl⟩
    exact List.mem_filter.2 ⟨hmem, by simpa using hgt⟩
  · intro a ha hgt
    unfold assess_risk_factors
    apply List.mem_append_left
    rw [if_pos hpos]
    refine List.mem_map.2 ⟨a, ?_, rfl⟩
    exact List.mem_filter.2 ⟨ha, by simpa using hgt⟩

/-- An 80%-of-portfolio stock holding. -/
def holdStock80 : Holding := ⟨"Co phieu HPG", .STOCK, 80, 80, .HIGH⟩

/-- A 20%-of-portfolio savings holding. -/
def holdSav20 : Holding := ⟨"Tiet kiem 20", .SAVINGS, 20, 20, .LOW⟩

/-- Witness for C10 at a concrete two-holding portfolio: the STOCK type
holds 80% (> 70 → HIGH in the analyze thresholds) and the stock holding
holds 80% (> 50 → HIGH in the assess thresholds). -/
theorem c10_witness :
    (⟨"concentration", "STOCK", 80, "HIGH"⟩ : RiskFactor) ∈
      identify_risk_factors (asset_allocation [holdStock80, holdSav20]) custLow ∧
    (⟨"concentration", "Co phieu HPG", 80, "HIGH"⟩ : RiskFactor) ∈
      assess_risk_factors [holdStock80, holdSav20] custLow := by
  have htot : totalValue [holdStock80, holdSav20] = 100 := by
    norm_num [totalValue, holdStock80, holdSav20]
  have h := c10_concentration_thresholds [holdStock80, holdSav20] custLow (by simp)
    (by rw [htot]; norm_num)
  constructor
  · have hmem : (AssetType.STOCK, (80 : ℚ)) ∈ asset_allocation [holdStock80, holdSav20] := by
      simp [asset_allocation, totalValue, typeValuePairs, dedupKeys, sumValuesFor,
        holdStock80, holdSav20]
      norm_num
    have h1 := h.1 .STOCK 80 hmem (by norm_num)
    have hsev : (if (80 : ℚ) > 70 then "HIGH" else "MEDIUM") = "HIGH" := by norm_num
    rw [hsev] at h1
    simpa [assetTypeName] using h1
  · have h2 := h.2 holdStock80 (by simp) (by rw [htot]; norm_num [holdStock80])
    have hpct : holdStock80.currentValue / totalValue [holdStock80, holdSav20] * 100
        = 80 := by
      rw [htot]
      norm_num [holdStock80]
    rw [hpct] at h2
    have hr : round2 (80 : ℚ) = 80 := by norm_num [round2, round_eq]
    rw [hr] at h2
    have hsev : (if (80 : ℚ) > 50 then "HIGH" else "MEDIUM") = "HIGH" := by norm_num
    rw [hsev] at h2
    simpa [holdStock80] using h2

/-- A Python exception as observed by the `except Exception` handler of
the endpoints in `app.py`: either a `fastapi.HTTPException` (with status
code and detail) or any other exception, carrying its message. -/
inductive PyExc where
  | http (status : Nat) (detail : String)
  | other (msg : String)
deriving DecidableEq, Repr

/-- `str(e)` for an exception: an `HTTPException` renders as
`"<status>: <detail>"`, any other exception as its message. -/
def strOfExc : PyExc → String
  | .http s d => toString s ++ ": " ++ d
  | .other msg => msg

/-- The outcome of an endpoint call as seen by the HTTP caller. -/
inductive Outcome (ρ : Type) where
  | ok (resp : ρ)
  | httpError (status : Nat) (detail : String)
deriving DecidableEq, Repr

/-- The control flow of the `POST /recommendations` handler
`get_recommendations` in `app.py`: inside one `try` block it returns
the cached response if present, raises `HTTPException(404, "Customer
not found")` if the customer fetch returned nothing, and otherwise runs
the remaining pipeline `rest` (data fetches, recommendation generation,
caching), which may itself raise.  The surrounding
`except Exception as e` catches every exception — `HTTPException` is an
`Exception` subclass, so the 404 raised inside the block is caught too —
and re-raises `HTTPException(500, str(e))`. -/
def get_recommendations_endpoint {ρ : Type} (cached : Option ρ) (customer : Option Customer)
    (rest : Customer → Except PyExc ρ) : Outcome ρ :=
  let tryBody : Except PyExc ρ :=
    match cached with
    | some r => .ok r
    | none =>
      match customer with
      | none => .error (.http 404 "Customer not found")
      | some c => rest c
  match tryBody with
  | .ok r => .ok r
  | .error e => .httpError 500 (strOfExc e)

/-- Claim C1 (code evaluation at the failing input): on a cache miss
with an absent customer profile the caller observes HTTP status 500
(detail "404: Customer not found"), not a 404 — the catch-all
`except Exception` converts the intended `HTTPException(404)` into a
500 — and any other exception raised by the remaining pipeline is also
surfaced to the caller as a 500, so the absent-customer case is not the
only user-visible failure. -/
theorem c1_customer_absent_returns_500 :
    ∀ (ρ : Type) (rest : Customer → Except PyExc ρ),
      get_recommendations_endpoint none none rest =
        Outcome.httpError 500 ("404: Customer not found") ∧
      (∀ c msg, get_recommendations_endpoint none (some c) (fun _ => .error (.other msg)) =
        Outcome.httpError (ρ := ρ) 500 msg) := by
  intro ρ rest
  exact ⟨rfl, fun c msg => rfl⟩

/-- Program counter of one task running `initialize_products`:
`ready` before the `if not self.investment_products:` check, `building`
while suspended in `await self._load_investment_products()`, `finished`
after the assignment (or after skipping the build). -/
inductive TaskPc where
  | ready
  | building
  | finished
deriving DecidableEq, Repr

/-- Shared state for two concurrent first calls of
`initialize_products`: the process-wide `self.investment_products` list
(abstracted to the build number that produced it), the number of
executed builds, and the two task program counters. -/
structure InitRace where
  catalog : List Nat
  builds : Nat
  pcA : TaskPc
  pcB : TaskPc
deriving DecidableEq, Repr

/-- One atomic step of a task.  At `ready` the task performs the
emptiness check: the body of `initialize_products` is
`if not self.investment_products: self.investment_products = await
self._load_investment_products()`, and the `await` suspends between the
check and the assignment, so the check and the assignment are separate
atomic actions.  At `building` the build completes and the fully-built
catalog `buildOut n` is assigned in one step (no partially-built
catalog is ever stored). -/
def taskStep (buildOut : Nat → List Nat) (pc : TaskPc) (catalog : List Nat) (builds : Nat) :
    TaskPc × List Nat × Nat :=
  match pc with
  | .ready => if catalog = [] then (.building, catalog, builds) else (.finished, catalog, builds)
  | .building => (.finished, buildOut builds, builds + 1)
  | .finished => (.finished, catalog, builds)

/-- Run the step of task A (`pick = true`) or task B (`pick = false`). -/
def schedStep (buildOut : Nat → List Nat) (s : InitRace) (pick : Bool) : InitRace :=
  if pick then
    let r := taskStep buildOut s.pcA s.catalog s.builds
    { s with pcA := r.1, catalog := r.2.1, builds := r.2.2 }
  else
    let r := taskStep buildOut s.pcB s.catalog s.builds
    { s with pcB := r.1, catalog := r.2.1, builds := r.2.2 }

/-- Run a schedule (interleaving) of the two tasks. -/
def runSched (buildOut : Nat → List Nat) (sched : List Bool) (s : InitRace) : InitRace :=
  sched.foldl (schedStep buildOut) s

/-- Both tasks start at the check with an empty catalog. -/
def initRace : InitRace := ⟨[], 0, .ready, .ready⟩

/-- Claim C9 (code evaluation at the failing interleaving):
`initialize_products` is an unguarded check-then-act.  Under the
interleaving A-check, B-check, A-build, B-build both tasks pass the
emptiness check before either assignment lands, so two builds execute
(the second assignment overwriting the first) — not exactly one; under
the sequential schedule A-check, A-build, B-check exactly one build
executes. -/
theorem c9_unguarded_double_build :
    (runSched (fun n => [n + 1]) [true, false, true, false] initRace).builds = 2 ∧
      ¬ (runSched (fun n => [n + 1]) [true, false, true, false] initRace).builds = 1 ∧
      (runSched (fun n => [n + 1]) [true, true, false] initRace).builds = 1 := by
  refine ⟨rfl, by simp [runSched, schedStep, taskStep, initRace], rfl⟩

end AIRec
